import Mathlib

/-!
Shallow embedding of the solana-rpc-stress-test request engine and
statistics collector (src/main.rs), together with proofs of the
specification's testable properties.

Machine integers (`u64`, `u16`) are modelled as `Nat`; the only place the
64-bit bound matters is JSON-number decoding into `u64`, where the bound is
explicit.  Latency arithmetic done in `f64` by the report step is modelled
with exact rational arithmetic (`ℚ`); the concrete values the spec tests are
exactly representable, so the model agrees with the binary floating point
computation on them.
-/

/-- Model of `serde_json::Value`.  Numbers are restricted to naturals, which
covers every value the program itself constructs (slot numbers, option
fields); caller-supplied parameters are arbitrary trees of this type. -/
inductive Json where
  | null : Json
  | bool (b : Bool) : Json
  | num (n : Nat) : Json
  | str (s : String) : Json
  | arr (elems : List Json) : Json
  | obj (fields : List (String × Json)) : Json

mutual

/-- Decidable equality for the JSON value model (written by hand because the
derive handler does not support the nested lists). -/
def Json.decEq : (a b : Json) → Decidable (a = b)
  | .null, .null => isTrue rfl
  | .bool x, .bool y =>
      if h : x = y then isTrue (by rw [h]) else isFalse (fun e => h (by cases e; rfl))
  | .num x, .num y =>
      if h : x = y then isTrue (by rw [h]) else isFalse (fun e => h (by cases e; rfl))
  | .str x, .str y =>
      if h : x = y then isTrue (by rw [h]) else isFalse (fun e => h (by cases e; rfl))
  | .arr xs, .arr ys =>
      match Json.decEqList xs ys with
      | isTrue h => isTrue (by rw [h])
      | isFalse h => isFalse (fun e => h (by cases e; rfl))
  | .obj xs, .obj ys =>
      match Json.decEqFields xs ys with
      | isTrue h => isTrue (by rw [h])
      | isFalse h => isFalse (fun e => h (by cases e; rfl))
  | .null, .bool _ => isFalse (fun h => Json.noConfusion h)
  | .null, .num _ => isFalse (fun h => Json.noConfusion h)
  | .null, .str _ => isFalse (fun h => Json.noConfusion h)
  | .null, .arr _ => isFalse (fun h => Json.noConfusion h)
  | .null, .obj _ => isFalse (fun h => Json.noConfusion h)
  | .bool _, .null => isFalse (fun h => Json.noConfusion h)
  | .bool _, .num _ => isFalse (fun h => Json.noConfusion h)
  | .bool _, .str _ => isFalse (fun h => Json.noConfusion h)
  | .bool _, .arr _ => isFalse (fun h => Json.noConfusion h)
  | .bool _, .obj _ => isFalse (fun h => Json.noConfusion h)
  | .num _, .null => isFalse (fun h => Json.noConfusion h)
  | .num _, .bool _ => isFalse (fun h => Json.noConfusion h)
  | .num _, .str _ => isFalse (fun h => Json.noConfusion h)
  | .num _, .arr _ => isFalse (fun h => Json.noConfusion h)
  | .num _, .obj _ => isFalse (fun h => Json.noConfusion h)
  | .str _, .null => isFalse (fun h => Json.noConfusion h)
  | .str _, .bool _ => isFalse (fun h => Json.noConfusion h)
  | .str _, .num _ => isFalse (fun h => Json.noConfusion h)
  | .str _, .arr _ => isFalse (fun h => Json.noConfusion h)
  | .str _, .obj _ => isFalse (fun h => Json.noConfusion h)
  | .arr _, .null => isFalse (fun h => Json.noConfusion h)
  | .arr _, .bool _ => isFalse (fun h => Json.noConfusion h)
  | .arr _, .num _ => isFalse (fun h => Json.noConfusion h)
  | .arr _, .str _ => isFalse (fun h => Json.noConfusion h)
  | .arr _, .obj _ => isFalse (fun h => Json.noConfusion h)
  | .obj _, .null => isFalse (fun h => Json.noConfusion h)
  | .obj _, .bool _ => isFalse (fun h => Json.noConfusion h)
  | .obj _, .num _ => isFalse (fun h => Json.noConfusion h)
  | .obj _, .str _ => isFalse (fun h => Json.noConfusion h)
  | .obj _, .arr _ => isFalse (fun h => Json.noConfusion h)

/-- Decidable equality for lists of JSON values. -/
def Json.decEqList : (a b : List Json) → Decidable (a = b)
  | [], [] => isTrue rfl
  | [], _ :: _ => isFalse (fun h => List.noConfusion h)
  | _ :: _, [] => isFalse (fun h => List.noConfusion h)
  | x :: xs, y :: ys =>
      match Json.decEq x y with
      | isTrue h1 =>
          match Json.decEqList xs ys with
          | isTrue h2 => isTrue (by rw [h1, h2])
          | isFalse h2 => isFalse (fun e => h2 (by cases e; rfl))
      | isFalse h1 => isFalse (fun e => h1 (by cases e; rfl))

/-- Decidable equality for JSON object field lists. -/
def Json.decEqFields : (a b : List (String × Json)) → Decidable (a = b)
  | [], [] => isTrue rfl
  | [], _ :: _ => isFalse (fun h => List.noConfusion h)
  | _ :: _, [] => isFalse (fun h => List.noConfusion h)
  | (s, x) :: xs, (t, y) :: ys =>
      if hs : s = t then
        match Json.decEq x y with
        | isTrue h1 =>
            match Json.decEqFields xs ys with
            | isTrue h2 => isTrue (by rw [hs, h1, h2])
            | isFalse h2 => isFalse (fun e => h2 (by cases e; rfl))
        | isFalse h1 => isFalse (fun e => h1 (by cases e; rfl))
      else isFalse (fun e => hs (by cases e; rfl))

end

instance : DecidableEq Json := Json.decEq

/-- Model of the `JsonRpcError` struct (fields `code : i32`, `message`). -/
structure JsonRpcError where
  code : Int
  message : String
deriving DecidableEq

/-- Model of the `JsonRpcResponse` struct: the JSON-RPC 2.0 envelope with
optional `result` and optional `error`.  Both options can be populated at
once, exactly as in the Rust struct (both fields are `Option`). -/
structure JsonRpcResponse where
  jsonrpc : String
  id : Nat
  result : Option Json
  error : Option JsonRpcError
deriving DecidableEq

/-- Modelled from the reqwest library's documented semantics (the library is
an external dependency, not part of src/): the classification of a
`reqwest::Error`.  `statusErr` arises only from `Response::error_for_status`
and carries the status that method recorded (`Error::status()` can in
general be absent, hence the `Option`); `decodeErr` is an error with
`is_decode() = true` (body could not be decoded); `timeoutErr` has
`is_timeout() = true`; `otherErr` covers every other transport failure
(connect, DNS, TLS, reset). -/
inductive ReqwestError where
  | decodeErr : ReqwestError
  | statusErr (status : Option (Nat × String)) : ReqwestError
  | timeoutErr : ReqwestError
  | otherErr : ReqwestError
deriving DecidableEq

/-- Modelled from the reqwest library's documented semantics: a completed
HTTP exchange as seen by the caller of `send()`.  `status`/`reason` are the
HTTP status line; `parsedBody` is `some env` when the body deserializes as
the `JsonRpcResponse` envelope and `none` otherwise.  Crucially, `send()`
itself succeeds for any status code; it fails only on transport problems. -/
structure HttpResponse where
  status : Nat
  reason : String
  parsedBody : Option JsonRpcResponse
deriving DecidableEq

/-- Model of `send_rpc_request` (src/main.rs lines 215-236): POST the
request, then `response.json::<JsonRpcResponse>()`.  The input is the result
of the underlying `send()` call.  Note the function never consults
`status`/`reason` — `error_for_status` is never called — so a non-2xx
response with a decodable body is returned as a normal envelope and one with
an undecodable body becomes a `decodeErr`. -/
def send_rpc_request (sendResult : Except ReqwestError HttpResponse) :
    Except ReqwestError JsonRpcResponse :=
  match sendResult with
  | .error e => .error e
  | .ok resp =>
      match resp.parsedBody with
      | some env => .ok env
      | none => .error .decodeErr

/-- A recording operation on the stats collector: exactly one is invoked per
logical request, mirroring the six `record_*` methods of `Stats`. -/
inductive Op where
  | success (latencyMicros : Nat) : Op
  | httpError (status : Nat) (reason : String) : Op
  | httpTimeout : Op
  | jsonParseError : Op
  | networkError : Op
  | rpcError : Op
deriving DecidableEq

/-- Breakdown key built by `record_http_error`: the Rust code formats the
status code, a single space, and the reason phrase into one string. -/
def errorKey (status : Nat) (reason : String) : String :=
  toString status ++ " " ++ reason

/-- Model of the `Stats` struct (src/main.rs lines 90-100).  The atomic
counters are naturals; the `HashMap<String, AtomicU64>` is an association
list with at most one entry per key; the `SegQueue<u64>` of response times
is the list of pushed values. -/
structure Stats where
  total_requests : Nat
  successful_requests : Nat
  http_errors : List (String × Nat)
  http_timeouts : Nat
  json_parse_errors : Nat
  network_errors : Nat
  rpc_errors : Nat
  response_times : List Nat
deriving DecidableEq

/-- Model of `Stats::new`. -/
def Stats.new : Stats :=
  { total_requests := 0
    successful_requests := 0
    http_errors := []
    http_timeouts := 0
    json_parse_errors := 0
    network_errors := 0
    rpc_errors := 0
    response_times := [] }

/-- The `entry(key).or_insert(0)` followed by `fetch_add(1)` of
`record_http_error`: increment the key's counter, creating it at 1 if the
key is absent. -/
def bumpKey : List (String × Nat) → String → List (String × Nat)
  | [], k => [(k, 1)]
  | (k', n) :: rest, k =>
      if k' = k then (k', n + 1) :: rest else (k', n) :: bumpKey rest k

/-- Model of `Stats::record_success`. -/
def Stats.record_success (s : Stats) (latencyMicros : Nat) : Stats :=
  { s with
    total_requests := s.total_requests + 1
    successful_requests := s.successful_requests + 1
    response_times := s.response_times ++ [latencyMicros] }

/-- Model of `Stats::record_http_error`. -/
def Stats.record_http_error (s : Stats) (status : Nat) (reason : String) : Stats :=
  { s with
    total_requests := s.total_requests + 1
    http_errors := bumpKey s.http_errors (errorKey status reason) }

/-- Model of `Stats::record_http_timeout`. -/
def Stats.record_http_timeout (s : Stats) : Stats :=
  { s with
    total_requests := s.total_requests + 1
    http_timeouts := s.http_timeouts + 1 }

/-- Model of `Stats::record_json_parse_error`. -/
def Stats.record_json_parse_error (s : Stats) : Stats :=
  { s with
    total_requests := s.total_requests + 1
    json_parse_errors := s.json_parse_errors + 1 }

/-- Model of `Stats::record_network_error`. -/
def Stats.record_network_error (s : Stats) : Stats :=
  { s with
    total_requests := s.total_requests + 1
    network_errors := s.network_errors + 1 }

/-- Model of `Stats::record_rpc_error`. -/
def Stats.record_rpc_error (s : Stats) : Stats :=
  { s with
    total_requests := s.total_requests + 1
    rpc_errors := s.rpc_errors + 1 }

/-- Dispatch one recording operation to the corresponding `Stats` method. -/
def applyOp (s : Stats) : Op → Stats
  | .success m => s.record_success m
  | .httpError st rs => s.record_http_error st rs
  | .httpTimeout => s.record_http_timeout
  | .jsonParseError => s.record_json_parse_error
  | .networkError => s.record_network_error
  | .rpcError => s.record_rpc_error

/-- Apply a sequence of recording operations in order. -/
def applyOps (s : Stats) (ops : List Op) : Stats :=
  ops.foldl applyOp s

/-- Count stored in the breakdown map for a key (0 when absent). -/
def lookupCount (l : List (String × Nat)) (k : String) : Nat :=
  match l.find? (fun e => e.1 = k) with
  | some e => e.2
  | none => 0

/-- Sum of all per-key counts in the breakdown map. -/
def sumCounts (l : List (String × Nat)) : Nat :=
  (l.map Prod.snd).sum

example : applyOps Stats.new [Op.success 5, Op.httpError 429 "Too Many Requests",
    Op.httpError 429 "Too Many Requests", Op.rpcError] =
    { total_requests := 4, successful_requests := 1,
      http_errors := [("429 Too Many Requests", 2)],
      http_timeouts := 0, json_parse_errors := 0, network_errors := 0,
      rpc_errors := 1, response_times := [5] } := by decide

/-- Model of the worker's outcome classification (src/main.rs lines
333-385): on an `Ok` envelope, success when `error` is absent, otherwise an
RPC error; on an `Err`, the chain `is_decode` / `is_status` (with or without
a recorded status) / `is_timeout` / fallback-network, each mapped to the
matching `record_*` call.  The latency argument is passed only to the
success recording, as in the source. -/
def classifyOutcome (micros : Nat) :
    Except ReqwestError JsonRpcResponse → Op
  | .ok env => if env.error.isNone then .success micros else .rpcError
  | .error .decodeErr => .jsonParseError
  | .error (.statusErr (some st)) => .httpError st.1 st.2
  | .error (.statusErr none) => .networkError
  | .error .timeoutErr => .httpTimeout
  | .error .otherErr => .networkError

/-- Model of `serde_json::from_value::<u64>`: succeeds exactly on a number
within the `u64` range. -/
def decodeU64 : Json → Option Nat
  | .num n => if n < 2 ^ 64 then some n else none
  | _ => none

/-- Model of `get_latest_slot` (src/main.rs lines 238-254): send `getSlot`,
and return `some slot` only when the call returned an envelope whose
`result` field is present and decodes as a `u64`; in every other case
(transport failure, absent result, undecodable result) return `none`.
Note the envelope's `error` field is never consulted. -/
def get_latest_slot (sendResult : Except ReqwestError JsonRpcResponse) :
    Option Nat :=
  match sendResult with
  | .ok response =>
      match response.result with
      | some v => decodeU64 v
      | none => none
  | .error _ => none

/-- Default `getBlock` options object synthesized by the worker when the
caller configured no parameters (src/main.rs lines 306-315). -/
def defaultBlockOptions : Json :=
  Json.obj
    [("commitment", Json.str "finalized"),
     ("encoding", Json.str "json"),
     ("transactionDetails", Json.str "full"),
     ("maxSupportedTransactionVersion", Json.num 0),
     ("rewards", Json.bool false)]

/-- Model of the step-2 parameter assembly (src/main.rs lines 292-316):
with two or more configured parameters use `params[1]` as the options, with
exactly one use `params[0]`, with none synthesize `defaultBlockOptions`;
the slot fetched in step 1 always comes first. -/
def blockParams (slot : Nat) (params : List Json) : List Json :=
  if params ≠ [] ∧ params.length > 1 then
    [Json.num slot, params.getD 1 Json.null]
  else if params ≠ [] then
    [Json.num slot, params.getD 0 Json.null]
  else
    [Json.num slot, defaultBlockOptions]

/-- One iteration of the composite (`getLatestBlock`) workload (src/main.rs
lines 279-331 plus the shared classification), as the pair of (recording
operations performed, step-2 request issued if any).  `step1` is the result
of the `getSlot` call; `step2Result` is what the `getBlock` call would
return if issued; `micros` is the measured latency. -/
def compositeIteration (step1 : Except ReqwestError JsonRpcResponse)
    (step2Result : Except ReqwestError JsonRpcResponse) (micros : Nat)
    (params : List Json) : List Op × Option (String × List Json) :=
  match get_latest_slot step1 with
  | none => ([Op.rpcError], none)
  | some slot =>
      ([classifyOutcome micros step2Result],
       some ("getBlock", blockParams slot params))

/-- Predicate picking out the step-1 results the spec calls failures: any
transport failure, or an envelope carrying a JSON-RPC error object. -/
def specStep1Failure : Except ReqwestError JsonRpcResponse → Prop
  | .error _ => True
  | .ok env => env.error.isSome = true

/-- Predicate picking out the step-1 results the code actually treats as
failures: any transport failure, or an envelope whose `result` field is
absent or does not decode as a `u64`. -/
def codeStep1Failure : Except ReqwestError JsonRpcResponse → Prop
  | .error _ => True
  | .ok env =>
      match env.result with
      | none => True
      | some v => decodeU64 v = none

/-- Request-id stream of one worker (src/main.rs lines 272-282): starting
from the running counter `rid`, each iteration first increments the counter
and uses it; a composite iteration immediately increments and consumes a
second id for the `getBlock` call (also when step 1 fails, since the
increment happens before the step-1 call).  Returns the ids consumed by
`iters` iterations. -/
def idsFrom (rid : Nat) (composite : Bool) : Nat → List Nat
  | 0 => []
  | n + 1 =>
      if composite then
        (rid + 1) :: (rid + 2) :: idsFrom (rid + 2) composite n
      else
        (rid + 1) :: idsFrom (rid + 1) composite n

/-- All request ids a worker with identity `workerId` consumes over `iters`
iterations: the counter starts at `workerId * 1_000_000`. -/
def workerIds (workerId iters : Nat) (composite : Bool) : List Nat :=
  idsFrom (workerId * 1000000) composite iters

/-- Model of the worker loop guard (src/main.rs line 275):
`start_time.elapsed() < duration || duration.as_secs() == 0`, with elapsed
time in nanoseconds and the duration given in whole seconds (it is built
with `Duration::from_secs`).  The guard is the only exit of the loop and
consults nothing besides these two quantities. -/
def shouldContinue (elapsedNanos durationSecs : Nat) : Bool :=
  decide (elapsedNanos < durationSecs * 1000000000) || decide (durationSecs = 0)

/-- Numeric content of the final report (src/main.rs lines 155-212), with
the `f64` arithmetic modelled exactly over `ℚ`. -/
structure Report where
  total : Nat
  successful : Nat
  successRate : ℚ
  httpBreakdown : List (String × Nat)
  httpTimeouts : Nat
  jsonParseErrors : Nat
  networkErrors : Nat
  rpcErrors : Nat
  avgMs : ℚ
  minMs : ℚ
  maxMs : ℚ
deriving DecidableEq

/-- Model of `Stats::print_summary` (src/main.rs lines 155-212): load every
counter, destructively drain the response-time queue into a list, and
compute the derived figures: average latency in ms (mean of the drained
microsecond values divided by 1000, 0 when empty), min/max latency in ms
(`unwrap_or(0)` when empty), success rate in percent (0 when total is 0).
Returns the report together with the collector state it leaves behind; only
the response times are consumed, every counter and the breakdown map are
merely read.  (The console rendering sorts the breakdown by key for
display; the counts themselves are reported unchanged.) -/
def print_summary (s : Stats) : Report × Stats :=
  let times := s.response_times
  let avg : ℚ :=
    if times ≠ [] then ((times.sum : ℚ) / (times.length : ℚ)) / 1000 else 0
  let minL : ℚ := match times.min? with
    | some t => (t : ℚ) / 1000
    | none => 0
  let maxL : ℚ := match times.max? with
    | some t => (t : ℚ) / 1000
    | none => 0
  let rate : ℚ :=
    if s.total_requests > 0 then
      ((s.successful_requests : ℚ) / (s.total_requests : ℚ)) * 100
    else 0
  ({ total := s.total_requests
     successful := s.successful_requests
     successRate := rate
     httpBreakdown := s.http_errors
     httpTimeouts := s.http_timeouts
     jsonParseErrors := s.json_parse_errors
     networkErrors := s.network_errors
     rpcErrors := s.rpc_errors
     avgMs := avg
     minMs := minL
     maxMs := maxL },
   { s with response_times := [] })

/-- Per-operation contribution to `successful_requests`. -/
def opSuccessful : Op → Nat
  | .success _ => 1
  | _ => 0

/-- Per-operation contribution to `http_timeouts`. -/
def opHttpTimeout : Op → Nat
  | .httpTimeout => 1
  | _ => 0

/-- Per-operation contribution to `json_parse_errors`. -/
def opJsonParse : Op → Nat
  | .jsonParseError => 1
  | _ => 0

/-- Per-operation contribution to `network_errors`. -/
def opNetwork : Op → Nat
  | .networkError => 1
  | _ => 0

/-- Per-operation contribution to `rpc_errors`. -/
def opRpc : Op → Nat
  | .rpcError => 1
  | _ => 0

/-- Per-operation contribution to the breakdown counter of key `k`. -/
def opKeyCount (k : String) : Op → Nat
  | .httpError st rs => if errorKey st rs = k then 1 else 0
  | _ => 0

/-- Latency pushed by an operation, if any. -/
def opLatency : Op → Option Nat
  | .success m => some m
  | _ => none

theorem sumCounts_bumpKey (l : List (String × Nat)) (k : String) :
    sumCounts (bumpKey l k) = sumCounts l + 1 := by
  induction l with
  | nil => simp [bumpKey, sumCounts]
  | cons e rest ih =>
      obtain ⟨k', n⟩ := e
      by_cases h : k' = k <;> simp [bumpKey, h, sumCounts] at ih ⊢ <;> omega

theorem lookupCount_cons (k' : String) (n : Nat) (rest : List (String × Nat))
    (k : String) :
    lookupCount ((k', n) :: rest) k = if k' = k then n else lookupCount rest k := by
  by_cases h : k' = k <;> simp [lookupCount, List.find?, h]

theorem lookupCount_bumpKey (l : List (String × Nat)) (k0 k : String) :
    lookupCount (bumpKey l k0) k = lookupCount l k + (if k0 = k then 1 else 0) := by
  induction l with
  | nil =>
      by_cases h : k0 = k <;>
        simp [bumpKey, lookupCount_cons, lookupCount, h]
  | cons e rest ih =>
      obtain ⟨k', n⟩ := e
      by_cases h : k' = k0
      · subst h
        simp only [bumpKey, if_pos rfl, lookupCount_cons]
        by_cases h2 : k' = k <;> simp [lookupCount_cons, h2]
      · simp only [bumpKey, if_neg h, lookupCount_cons]
        by_cases h2 : k' = k
        · have h3 : ¬ k0 = k := fun e => h (h2.trans e.symm)
          simp [h2, h3]
        · simp [h2, ih]

theorem applyOp_total (s : Stats) (op : Op) :
    (applyOp s op).total_requests = s.total_requests + 1 := by
  cases op <;> rfl

theorem applyOp_successful (s : Stats) (op : Op) :
    (applyOp s op).successful_requests = s.successful_requests + opSuccessful op := by
  cases op <;> rfl

theorem applyOp_http_timeouts (s : Stats) (op : Op) :
    (applyOp s op).http_timeouts = s.http_timeouts + opHttpTimeout op := by
  cases op <;> rfl

theorem applyOp_json_parse_errors (s : Stats) (op : Op) :
    (applyOp s op).json_parse_errors = s.json_parse_errors + opJsonParse op := by
  cases op <;> rfl

theorem applyOp_network_errors (s : Stats) (op : Op) :
    (applyOp s op).network_errors = s.network_errors + opNetwork op := by
  cases op <;> rfl

theorem applyOp_rpc_errors (s : Stats) (op : Op) :
    (applyOp s op).rpc_errors = s.rpc_errors + opRpc op := by
  cases op <;> rfl

theorem applyOp_lookupCount (s : Stats) (op : Op) (k : String) :
    lookupCount (applyOp s op).http_errors k =
      lookupCount s.http_errors k + opKeyCount k op := by
  cases op <;>
    simp [applyOp, Stats.record_success, Stats.record_http_error,
      Stats.record_http_timeout, Stats.record_json_parse_error,
      Stats.record_network_error, Stats.record_rpc_error, opKeyCount,
      lookupCount_bumpKey]

theorem applyOp_times (s : Stats) (op : Op) :
    (applyOp s op).response_times = s.response_times ++ (opLatency op).toList := by
  cases op <;>
    simp [applyOp, Stats.record_success, Stats.record_http_error,
      Stats.record_http_timeout, Stats.record_json_parse_error,
      Stats.record_network_error, Stats.record_rpc_error, opLatency]

theorem applyOps_cons (s : Stats) (op : Op) (ops : List Op) :
    applyOps s (op :: ops) = applyOps (applyOp s op) ops := rfl

/-- Generic accumulation lemma: any `Nat` field of the collector whose
single-step change is an additive per-operation contribution accumulates
the sum of contributions over a run. -/
theorem applyOps_field_sum (f : Stats → Nat) (g : Op → Nat)
    (hstep : ∀ s op, f (applyOp s op) = f s + g op) :
    ∀ (ops : List Op) (s : Stats),
      f (applyOps s ops) = f s + (ops.map g).sum
  | [], s => by simp [applyOps]
  | op :: rest, s => by
      rw [applyOps_cons, applyOps_field_sum f g hstep rest (applyOp s op), hstep]
      simp [Nat.add_assoc]

theorem applyOps_times : ∀ (ops : List Op) (s : Stats),
    (applyOps s ops).response_times = s.response_times ++ ops.filterMap opLatency
  | [], s => by simp [applyOps]
  | op :: rest, s => by
      rw [applyOps_cons, applyOps_times rest (applyOp s op), applyOp_times]
      cases hop : opLatency op <;> simp [List.filterMap_cons, hop]

/-- The invariant of the statistics collector: the total is the sum of the
success counter, the four dedicated error counters and all per-key HTTP
error counts. -/
def statsInvariant (s : Stats) : Prop :=
  s.total_requests =
    s.successful_requests + s.http_timeouts + s.json_parse_errors +
      s.network_errors + s.rpc_errors + sumCounts s.http_errors

theorem statsInvariant_applyOp (s : Stats) (op : Op)
    (h : statsInvariant s) : statsInvariant (applyOp s op) := by
  cases op <;>
    simp [statsInvariant, applyOp, Stats.record_success,
      Stats.record_http_error, Stats.record_http_timeout,
      Stats.record_json_parse_error, Stats.record_network_error,
      Stats.record_rpc_error, sumCounts_bumpKey] at h ⊢ <;>
    omega

theorem statsInvariant_applyOps : ∀ (ops : List Op) (s : Stats),
    statsInvariant s → statsInvariant (applyOps s ops)
  | [], _, h => h
  | op :: rest, s, h =>
      statsInvariant_applyOps rest (applyOp s op) (statsInvariant_applyOp s op h)

/-- C1: for every finite sequence of recording operations applied in any
order to a fresh collector, the final total equals successful + timeouts +
decode errors + network errors + RPC errors + the sum of all per-key HTTP
error counts. -/
theorem C1_total_equals_sum_of_categories (ops : List Op) :
    (applyOps Stats.new ops).total_requests =
      (applyOps Stats.new ops).successful_requests +
        (applyOps Stats.new ops).http_timeouts +
        (applyOps Stats.new ops).json_parse_errors +
        (applyOps Stats.new ops).network_errors +
        (applyOps Stats.new ops).rpc_errors +
        sumCounts (applyOps Stats.new ops).http_errors :=
  statsInvariant_applyOps ops Stats.new (by simp [statsInvariant, Stats.new, sumCounts])

/-- C8: recording is order-independent.  For any two permutations of the
same multiset of outcomes, replaying them against a fresh collector yields
identical totals, success counts, dedicated error counters, per-key HTTP
error counts, and the same latency multiset. -/
theorem C8_recording_order_independent (l1 l2 : List Op) (h : l1.Perm l2) :
    (applyOps Stats.new l1).total_requests = (applyOps Stats.new l2).total_requests ∧
    (applyOps Stats.new l1).successful_requests = (applyOps Stats.new l2).successful_requests ∧
    (applyOps Stats.new l1).http_timeouts = (applyOps Stats.new l2).http_timeouts ∧
    (applyOps Stats.new l1).json_parse_errors = (applyOps Stats.new l2).json_parse_errors ∧
    (applyOps Stats.new l1).network_errors = (applyOps Stats.new l2).network_errors ∧
    (applyOps Stats.new l1).rpc_errors = (applyOps Stats.new l2).rpc_errors ∧
    (∀ k, lookupCount (applyOps Stats.new l1).http_errors k =
        lookupCount (applyOps Stats.new l2).http_errors k) ∧
    (↑(applyOps Stats.new l1).response_times : Multiset Nat) =
      (↑(applyOps Stats.new l2).response_times : Multiset Nat) := by
  refine ⟨?_, ?_, ?_, ?_, ?_, ?_, ?_, ?_⟩
  · rw [applyOps_field_sum (fun s => s.total_requests) (fun _ => 1) applyOp_total,
      applyOps_field_sum (fun s => s.total_requests) (fun _ => 1) applyOp_total,
      (h.map (fun _ => 1)).sum_eq]
  · rw [applyOps_field_sum (fun s => s.successful_requests) opSuccessful applyOp_successful,
      applyOps_field_sum (fun s => s.successful_requests) opSuccessful applyOp_successful,
      (h.map opSuccessful).sum_eq]
  · rw [applyOps_field_sum (fun s => s.http_timeouts) opHttpTimeout applyOp_http_timeouts,
      applyOps_field_sum (fun s => s.http_timeouts) opHttpTimeout applyOp_http_timeouts,
      (h.map opHttpTimeout).sum_eq]
  · rw [applyOps_field_sum (fun s => s.json_parse_errors) opJsonParse applyOp_json_parse_errors,
      applyOps_field_sum (fun s => s.json_parse_errors) opJsonParse applyOp_json_parse_errors,
      (h.map opJsonParse).sum_eq]
  · rw [applyOps_field_sum (fun s => s.network_errors) opNetwork applyOp_network_errors,
      applyOps_field_sum (fun s => s.network_errors) opNetwork applyOp_network_errors,
      (h.map opNetwork).sum_eq]
  · rw [applyOps_field_sum (fun s => s.rpc_errors) opRpc applyOp_rpc_errors,
      applyOps_field_sum (fun s => s.rpc_errors) opRpc applyOp_rpc_errors,
      (h.map opRpc).sum_eq]
  · intro k
    rw [applyOps_field_sum (fun s => lookupCount s.http_errors k) (opKeyCount k)
        (fun s op => applyOp_lookupCount s op k),
      applyOps_field_sum (fun s => lookupCount s.http_errors k) (opKeyCount k)
        (fun s op => applyOp_lookupCount s op k),
      (h.map (opKeyCount k)).sum_eq]
  · rw [applyOps_times, applyOps_times]
    exact Multiset.coe_eq_coe.mpr ((h.filterMap opLatency).append_left _)

/-- Witness for C8 at a concrete pair of permuted recording sequences. -/
theorem C8_recording_order_independent_witness :
    (applyOps Stats.new [Op.success 5, Op.httpError 500 "Internal Server Error", Op.rpcError]).total_requests =
      (applyOps Stats.new [Op.rpcError, Op.success 5, Op.httpError 500 "Internal Server Error"]).total_requests ∧
    (applyOps Stats.new [Op.success 5, Op.httpError 500 "Internal Server Error", Op.rpcError]).successful_requests =
      (applyOps Stats.new [Op.rpcError, Op.success 5, Op.httpError 500 "Internal Server Error"]).successful_requests ∧
    (applyOps Stats.new [Op.success 5, Op.httpError 500 "Internal Server Error", Op.rpcError]).http_timeouts =
      (applyOps Stats.new [Op.rpcError, Op.success 5, Op.httpError 500 "Internal Server Error"]).http_timeouts ∧
    (applyOps Stats.new [Op.success 5, Op.httpError 500 "Internal Server Error", Op.rpcError]).json_parse_errors =
      (applyOps Stats.new [Op.rpcError, Op.success 5, Op.httpError 500 "Internal Server Error"]).json_parse_errors ∧
    (applyOps Stats.new [Op.success 5, Op.httpError 500 "Internal Server Error", Op.rpcError]).network_errors =
      (applyOps Stats.new [Op.rpcError, Op.success 5, Op.httpError 500 "Internal Server Error"]).network_errors ∧
    (applyOps Stats.new [Op.success 5, Op.httpError 500 "Internal Server Error", Op.rpcError]).rpc_errors =
      (applyOps Stats.new [Op.rpcError, Op.success 5, Op.httpError 500 "Internal Server Error"]).rpc_errors ∧
    (∀ k, lookupCount (applyOps Stats.new [Op.success 5, Op.httpError 500 "Internal Server Error", Op.rpcError]).http_errors k =
        lookupCount (applyOps Stats.new [Op.rpcError, Op.success 5, Op.httpError 500 "Internal Server Error"]).http_errors k) ∧
    (↑(applyOps Stats.new [Op.success 5, Op.httpError 500 "Internal Server Error", Op.rpcError]).response_times : Multiset Nat) =
      (↑(applyOps Stats.new [Op.rpcError, Op.success 5, Op.httpError 500 "Internal Server Error"]).response_times : Multiset Nat) :=
  C8_recording_order_independent _ _ (by decide)

/-- C9: the report's latency aggregation.  Recording the latencies 1000,
2000 and 3000 microseconds yields an average of 2 ms and a minimum/maximum
of 1 ms and 3 ms, and the empty collector reports 0 for all three. -/
theorem C9_latency_aggregation :
    ((print_summary (applyOps Stats.new
        [Op.success 1000, Op.success 2000, Op.success 3000])).1.avgMs = 2 ∧
      (print_summary (applyOps Stats.new
        [Op.success 1000, Op.success 2000, Op.success 3000])).1.minMs = 1 ∧
      (print_summary (applyOps Stats.new
        [Op.success 1000, Op.success 2000, Op.success 3000])).1.maxMs = 3) ∧
    ((print_summary Stats.new).1.avgMs = 0 ∧
      (print_summary Stats.new).1.minMs = 0 ∧
      (print_summary Stats.new).1.maxMs = 0) := by
  have hstats : applyOps Stats.new
      [Op.success 1000, Op.success 2000, Op.success 3000] =
      { total_requests := 3, successful_requests := 3, http_errors := [],
        http_timeouts := 0, json_parse_errors := 0, network_errors := 0,
        rpc_errors := 0, response_times := [1000, 2000, 3000] } := by decide
  have hmin : ([1000, 2000, 3000] : List Nat).min? = some 1000 := by decide
  have hmax : ([1000, 2000, 3000] : List Nat).max? = some 3000 := by decide
  rw [hstats]
  refine ⟨⟨?_, ?_, ?_⟩, ⟨?_, ?_, ?_⟩⟩ <;>
    simp [print_summary, hmin, hmax, Stats.new] <;> norm_num

/-- C10: the report step mutates only the latency multiset: every counter
and the whole breakdown map survive unchanged, the latencies are drained,
and a second report returns the same counts with an empty latency set. -/
theorem C10_report_mutates_only_latencies (s : Stats) :
    ((print_summary s).2.total_requests = s.total_requests ∧
      (print_summary s).2.successful_requests = s.successful_requests ∧
      (print_summary s).2.http_errors = s.http_errors ∧
      (print_summary s).2.http_timeouts = s.http_timeouts ∧
      (print_summary s).2.json_parse_errors = s.json_parse_errors ∧
      (print_summary s).2.network_errors = s.network_errors ∧
      (print_summary s).2.rpc_errors = s.rpc_errors ∧
      (print_summary s).2.response_times = []) ∧
    ((print_summary (print_summary s).2).1.total = (print_summary s).1.total ∧
      (print_summary (print_summary s).2).1.successful = (print_summary s).1.successful ∧
      (print_summary (print_summary s).2).1.httpBreakdown = (print_summary s).1.httpBreakdown ∧
      (print_summary (print_summary s).2).1.httpTimeouts = (print_summary s).1.httpTimeouts ∧
      (print_summary (print_summary s).2).1.jsonParseErrors = (print_summary s).1.jsonParseErrors ∧
      (print_summary (print_summary s).2).1.networkErrors = (print_summary s).1.networkErrors ∧
      (print_summary (print_summary s).2).1.rpcErrors = (print_summary s).1.rpcErrors ∧
      (print_summary (print_summary s).2).1.avgMs = 0 ∧
      (print_summary (print_summary s).2).1.minMs = 0 ∧
      (print_summary (print_summary s).2).1.maxMs = 0) :=
  ⟨⟨rfl, rfl, rfl, rfl, rfl, rfl, rfl, rfl⟩,
   ⟨rfl, rfl, rfl, rfl, rfl, rfl, rfl, rfl, rfl, rfl⟩⟩

/-- Concrete success envelope (used as a step-2 result in witnesses). -/
def okEnvelope : JsonRpcResponse :=
  { jsonrpc := "2.0", id := 2, result := some (Json.num 1), error := none }

/-- Concrete step-1 envelope carrying a JSON-RPC error object together with
a numeric result, which the permissive response struct admits. -/
def errorWithResultEnvelope : JsonRpcResponse :=
  { jsonrpc := "2.0", id := 1, result := some (Json.num 12345),
    error := some { code := -32000, message := "server error" } }

/-- C2 counterexample: a step-1 envelope that carries a JSON-RPC error
object (a failure in the claim's sense) but also a numeric result is
treated as a success by `get_latest_slot`: no `RpcError` is recorded for
step 1 and the step-2 `getBlock` request is issued anyway. -/
theorem C2_counterexample_error_envelope_reaches_step2 :
    specStep1Failure (.ok errorWithResultEnvelope) ∧
    (compositeIteration (.ok errorWithResultEnvelope) (.ok okEnvelope) 7 []).1 =
      [Op.success 7] ∧
    (compositeIteration (.ok errorWithResultEnvelope) (.ok okEnvelope) 7 []).2 =
      some ("getBlock", [Json.num 12345, defaultBlockOptions]) := by
  refine ⟨rfl, by decide, by decide⟩

/-- C2 (amended): whenever step 1 fails in the sense the code tests — a
transport failure, or an envelope whose `result` field is absent or does
not decode as a `u64` — the composite iteration records exactly one
`RpcError` for the whole logical request and never issues the step-2
`getBlock` request. -/
theorem C2_amended_step1_failure_short_circuits
    (step1 step2 : Except ReqwestError JsonRpcResponse) (micros : Nat)
    (params : List Json) (h : codeStep1Failure step1) :
    compositeIteration step1 step2 micros params = ([Op.rpcError], none) := by
  cases step1 with
  | error e => rfl
  | ok env =>
      cases henv : env.result with
      | none => simp [compositeIteration, get_latest_slot, henv]
      | some v =>
          simp only [codeStep1Failure] at h
          rw [henv] at h
          simp [compositeIteration, get_latest_slot, henv, h]

/-- Witness for the amended C2 at a concrete timed-out step 1. -/
theorem C2_amended_step1_failure_short_circuits_witness :
    codeStep1Failure (Except.error ReqwestError.timeoutErr) ∧
    compositeIteration (Except.error ReqwestError.timeoutErr)
      (.ok okEnvelope) 7 [] = ([Op.rpcError], none) :=
  ⟨trivial, C2_amended_step1_failure_short_circuits _ _ _ _ trivial⟩

/-- Concrete non-2xx HTTP response whose body is not a JSON-RPC envelope
(as with a typical HTML or plain-text rate-limit page). -/
def non2xxResponse : HttpResponse :=
  { status := 429, reason := "Too Many Requests", parsedBody := none }

/-- C3 (evaluation of the code at the failing input): a transport-level
success with status 429 "Too Many Requests" and an undecodable body is
recorded as a JSON parse error — the breakdown map stays empty — and, in
general, a request whose `send()` succeeded can never be classified as an
HTTP error, because `send_rpc_request` never inspects the status. -/
theorem C3_non2xx_recorded_as_parse_error :
    (classifyOutcome 0 (send_rpc_request (.ok non2xxResponse)) = Op.jsonParseError ∧
      (applyOp Stats.new
        (classifyOutcome 0 (send_rpc_request (.ok non2xxResponse)))).http_errors = [] ∧
      (applyOp Stats.new
        (classifyOutcome 0 (send_rpc_request (.ok non2xxResponse)))).json_parse_errors = 1) ∧
    ∀ (r : HttpResponse) (m st : Nat) (rs : String),
      classifyOutcome m (send_rpc_request (.ok r)) ≠ Op.httpError st rs := by
  refine ⟨⟨rfl, rfl, rfl⟩, ?_⟩
  intro r m st rs
  cases hb : r.parsedBody with
  | none => simp [send_rpc_request, hb, classifyOutcome]
  | some env =>
      by_cases he : env.error.isNone <;>
        simp [send_rpc_request, hb, classifyOutcome, he]

/-- Concrete three-element parameter list whose last element is a
detail-options object. -/
def threeParams : List Json :=
  [Json.str "a", Json.str "b", Json.obj [("commitment", Json.str "confirmed")]]

/-- C6 counterexample: with three configured parameters whose last element
is a detail-options object, step 2 reuses the second element, not the last
one. -/
theorem C6_counterexample_third_parameter_ignored :
    blockParams 5 threeParams = [Json.num 5, Json.str "b"] ∧
    blockParams 5 threeParams ≠ [Json.num 5, threeParams.getLastD Json.null] := by
  exact ⟨by decide, by decide⟩

/-- C6 (amended): with at least two configured parameters, step 2's
parameters are exactly the fetched slot followed by the caller's second
parameter reused verbatim (the sole parameter if exactly one is supplied);
this coincides with the last element only for lists of length at most two.
No default options are synthesized for a nonempty list. -/
theorem C6_amended_second_parameter_reused (slot : Nat) (p0 p1 : Json)
    (rest : List Json) :
    blockParams slot (p0 :: p1 :: rest) = [Json.num slot, p1] ∧
    blockParams slot [p0] = [Json.num slot, p0] := by
  constructor <;> simp [blockParams]

/-- C7: on a step-1 success returning slot `s` with no caller-supplied
parameters, step 2 is issued with method `getBlock` and parameters exactly
`[s, {commitment, encoding, transactionDetails,
maxSupportedTransactionVersion, rewards}]` with the default field values. -/
theorem C7_default_options_synthesized (slot micros : Nat)
    (hslot : slot < 2 ^ 64) (step2 : Except ReqwestError JsonRpcResponse) :
    compositeIteration
      (.ok { jsonrpc := "2.0", id := 1, result := some (Json.num slot),
             error := none })
      step2 micros [] =
      ([classifyOutcome micros step2],
        some ("getBlock",
          [Json.num slot,
            Json.obj
              [("commitment", Json.str "finalized"),
                ("encoding", Json.str "json"),
                ("transactionDetails", Json.str "full"),
                ("maxSupportedTransactionVersion", Json.num 0),
                ("rewards", Json.bool false)]])) := by
  have h64 : slot < 18446744073709551616 := by
    calc slot < 2 ^ 64 := hslot
      _ = 18446744073709551616 := by norm_num
  simp [compositeIteration, get_latest_slot, decodeU64, h64, blockParams,
    defaultBlockOptions]

/-- Witness for C7 at slot 12345. -/
theorem C7_default_options_synthesized_witness :
    compositeIteration
      (.ok { jsonrpc := "2.0", id := 1, result := some (Json.num 12345),
             error := none })
      (.ok okEnvelope) 7 [] =
      ([Op.success 7],
        some ("getBlock",
          [Json.num 12345,
            Json.obj
              [("commitment", Json.str "finalized"),
                ("encoding", Json.str "json"),
                ("transactionDetails", Json.str "full"),
                ("maxSupportedTransactionVersion", Json.num 0),
                ("rewards", Json.bool false)]])) :=
  C7_default_options_synthesized 12345 7 (by norm_num) (.ok okEnvelope)

theorem mem_idsFrom : ∀ (n : Nat) (c : Bool) (rid i : Nat),
    i ∈ idsFrom rid c n ↔ rid < i ∧ i ≤ rid + (if c then 2 * n else n)
  | 0, c, rid, i => by cases c <;> simp [idsFrom] <;> omega
  | n + 1, c, rid, i => by
      cases c <;> simp [idsFrom, mem_idsFrom n _ _ i] <;> omega

theorem idsFrom_nodup : ∀ (n : Nat) (c : Bool) (rid : Nat),
    (idsFrom rid c n).Nodup
  | 0, c, rid => by cases c <;> simp [idsFrom]
  | n + 1, c, rid => by
      cases c <;>
        simp [idsFrom, List.nodup_cons, mem_idsFrom, idsFrom_nodup n] <;> omega

/-- C4 counterexample: with two workers each issuing 1,000,001 single-call
requests, id 1,000,001 is produced both by worker 0 (its last request) and
by worker 1 (its first request), so the run's ids are not pairwise
distinct. -/
theorem C4_counterexample_id_collision :
    1000001 ∈ workerIds 0 1000001 false ∧
    1000001 ∈ workerIds 1 1000001 false := by
  constructor <;> rw [workerIds, mem_idsFrom] <;> norm_num

/-- C4 (amended): request ids are `workerIdentity * 1_000_000` plus the
running local sequence, and as long as every worker consumes at most
1,000,000 ids over the run — its own request count for a single-call
worker, twice that for a composite worker, with workloads and counts free
to differ from worker to worker, as a configuration-file run produces —
the ids are pairwise distinct across the whole run: no duplicates within a
worker and no overlap between distinct workers. -/
theorem C4_amended_ids_distinct_within_partition (w1 w2 R1 R2 : Nat)
    (c1 c2 : Bool)
    (hR1 : (if c1 then 2 * R1 else R1) ≤ 1000000)
    (hR2 : (if c2 then 2 * R2 else R2) ≤ 1000000) :
    (workerIds w1 R1 c1).Nodup ∧
    (w1 ≠ w2 → ∀ i, i ∈ workerIds w1 R1 c1 → i ∉ workerIds w2 R2 c2) := by
  refine ⟨idsFrom_nodup R1 c1 _, ?_⟩
  intro hw i h1 h2
  rw [workerIds, mem_idsFrom] at h1 h2
  cases c1 <;> cases c2 <;> simp at hR1 hR2 h1 h2 <;> omega

/-- Witness for the amended C4: a composite worker with two iterations next
to a single-call worker with five. -/
theorem C4_amended_ids_distinct_within_partition_witness :
    (workerIds 3 2 true).Nodup ∧
    (3 ≠ 4 → ∀ i, i ∈ workerIds 3 2 true → i ∉ workerIds 4 5 false) :=
  C4_amended_ids_distinct_within_partition 3 4 2 5 true false (by norm_num)
    (by norm_num)

/-- C5 (evaluation of the code): with duration 0 the worker's loop guard is
true at every elapsed time, so the worker never self-terminates; the guard
is the loop's only exit and consults elapsed time and duration alone — the
program contains no cancellation signal for it to poll. -/
theorem C5_zero_duration_guard_always_true (elapsedNanos : Nat) :
    shouldContinue elapsedNanos 0 = true := by
  simp [shouldContinue]
